import Mathlib

/-!
Shallow embedding of the file-converter backend (Express + CloudConvert relay).

Two entry points are embedded:
  * `handler`    — the remote-URL mode from src/netlify/functions/convert.js
                   (job creation, bounded 40-attempt polling loop);
  * `apiConvert` — the upload mode route POST /api/convert from src/server.js
                   (validation gate, job creation, upload handshake, blocking
                   wait, result extraction), together with `uploadEntry`
                   wrapping it behind the multer fileFilter.

External HTTP effects (job creation, the signed-URL upload push, status
fetches, the blocking wait) are passed in as explicit outcome parameters
(`Except JsErr _`), and each embedded operation additionally returns the
ordered list of external calls it issued, so that fail-fast / call-ordering
properties are statable.  JSON parsing of the inbound body is abstracted to
its outcome.  JavaScript truthiness on strings ("" is falsy) is modelled by
`truthy`.
-/

/-- A JavaScript exception reaching a catch block: either an axios transport
error carrying an optional upstream response status and payload, or any other
thrown error (e.g. a TypeError from reading a field of `undefined`).  Multer
errors never reach the route-level catch in src/server.js — they are raised in
the middleware layer before the route body runs — so they have no constructor
here. -/
inductive JsErr where
  | axios (message : String) (status : Option Nat) (upstreamData : Option String)
  | other (message : String)
deriving DecidableEq, Repr

/-- The `message` property read by the catch blocks (`e?.message`). -/
def JsErr.message : JsErr → String
  | .axios m _ _ => m
  | .other m => m

/-- One output-file descriptor of a finished export task
(`exportTask.result.files[i]`). -/
structure FileInfo where
  url : String
  filename : String
  size : Nat
  content_type : String
deriving DecidableEq, Repr

/-- The signed-upload form of an import task result (`importTask.result.form`). -/
structure FormInfo where
  url : String
  parameters : Option (List (String × String))
deriving DecidableEq, Repr

/-- A task result object; the `form` field is used by import tasks and the
`files` field by export tasks.  Either may be absent in the JSON. -/
structure TaskResult where
  form : Option FormInfo := none
  files : Option (List FileInfo) := none
deriving DecidableEq, Repr

/-- One named task of a CloudConvert job. -/
structure CTask where
  name : String
  status : Option String
  result : Option TaskResult
deriving DecidableEq, Repr

/-- `t.result?.files?.[0]` — the first output file of a task, if any. -/
def CTask.firstFile (t : CTask) : Option FileInfo :=
  (t.result.bind TaskResult.files).bind List.head?

/-- JavaScript string truthiness for an optional string field: absent and ""
are falsy. -/
def truthy : Option String → Bool
  | none => false
  | some s => s != ""

/-! ## Validation gate (src/server.js)

`CONVERSION_MAP` mirrors the object literal at src/server.js lines 51–59 as a
key lookup, and `CONVERSION_MAP_keys` mirrors `Object.keys(CONVERSION_MAP)`.
`isTargetAllowed` is src/server.js lines 61–64; its JS argument coercion
`String(target || '')` is the identity on the string arguments the route
passes, so the embedding takes a `String`. -/

def CONVERSION_MAP (mime : String) : Option (List String) :=
  if mime = "application/pdf" then some ["docx", "png"]
  else if mime = "application/msword" then some ["pdf", "docx"]
  else if mime = "application/vnd.openxmlformats-officedocument.wordprocessingml.document" then some ["pdf"]
  else if mime = "image/jpeg" then some ["png", "webp", "jpg"]
  else if mime = "image/png" then some ["jpg", "webp", "pdf", "png"]
  else if mime = "image/webp" then some ["jpg", "png"]
  else if mime = "text/plain" then some ["pdf"]
  else none

def CONVERSION_MAP_keys : List String :=
  ["application/pdf", "application/msword",
   "application/vnd.openxmlformats-officedocument.wordprocessingml.document",
   "image/jpeg", "image/png", "image/webp", "text/plain"]

/-- `s.toLowerCase()` — ASCII lower-casing, character by character (the
allow-list and the formats involved are ASCII-only). -/
def toLowerCase (s : String) : String :=
  String.mk (s.data.map Char.toLower)

def isTargetAllowed (mime : String) (target : String) : Bool :=
  let allowed := (CONVERSION_MAP mime).getD []
  allowed.contains (toLowerCase target)

/-- The banned executable content types of the multer fileFilter
(src/server.js lines 37–43). -/
def bannedTypes : List String :=
  ["application/x-msdownload", "application/x-dosexec",
   "application/x-executable", "application/x-sh", "application/x-binary"]

/-! ## Remote-URL mode (src/netlify/functions/convert.js)

The handler receives the inbound event, the outcome of the job-creation call,
and the outcome of each status fetch (`fetches i` is the result of the
`i`-th GET of the job, `i` starting at 0).  It returns the HTTP response
together with the ordered trace of sleeps and external calls it performed. -/

/-- The parsed request body `{ fileUrl, target }`; absent fields are `none`. -/
structure EventBody where
  fileUrl : Option String
  target : Option String
deriving DecidableEq, Repr

/-- The inbound event: its HTTP method and the outcome of
`JSON.parse(event.body || "{}")` (a parse failure is a thrown error that the
catch block turns into a response). -/
structure NetlifyEvent where
  httpMethod : String
  parsedBody : Except JsErr EventBody
deriving Repr

/-- The job-creation response data (`jobRes.data?.data?.id`). -/
structure CreateResp where
  id : Option String
deriving DecidableEq, Repr

/-- One status-fetch response, collapsed to the fields the handler reads:
`j.data?.data?.status` and `j.data?.data?.tasks`. -/
structure JobSnapshot where
  status : Option String
  tasks : Option (List CTask)
deriving DecidableEq, Repr

/-- `j.data?.data?.tasks?.find(t => t.name === "export-1" && t.status ===
"finished")?.result?.files?.[0]` — the output file visible in a snapshot. -/
def JobSnapshot.fileOut (j : JobSnapshot) : Option FileInfo :=
  ((j.tasks.getD []).find?
      (fun t => t.name == "export-1" && t.status == some "finished")).bind
    CTask.firstFile

/-- An event of the remote-URL handler's external-effect trace. -/
inductive NCall where
  | createJob
  | sleepMs (ms : Nat)
  | statusFetch (i : Nat)
deriving DecidableEq, Repr

def NCall.isFetch : NCall → Bool
  | .statusFetch _ => true
  | _ => false

/-- The response body of the remote-URL handler (after `JSON.stringify`):
either `{ error, details? }` or the four-field success payload. -/
inductive NBody where
  | fail (error : String) (details : Option String)
  | success (downloadUrl : String) (filename : String) (sizeBytes : Nat)
      (contentType : String)
deriving DecidableEq, Repr

structure NResponse where
  statusCode : Nat
  body : NBody
deriving DecidableEq, Repr

/-- The polling loop of src/netlify/functions/convert.js lines 30–43:
`for (let i = 0; i < 40 && !done; i++)`, each iteration sleeping 1500 ms,
fetching the job, taking the first file of a finished `export-1` task if one
is present (setting `done`), then breaking if the overall job status is
`"error"`.  `fuel` counts the remaining iterations (the handler starts it at
40), `i` is the current attempt index.  Returns `fileOut` (or the thrown
fetch error) and the trace of sleeps and fetches. -/
def pollLoop (fetches : Nat → Except JsErr JobSnapshot) :
    Nat → Nat → Except JsErr (Option FileInfo) × List NCall
  | _, 0 => (.ok none, [])
  | i, fuel + 1 =>
    match fetches i with
    | .error e => (.error e, [.sleepMs 1500, .statusFetch i])
    | .ok j =>
      match j.fileOut with
      | some f => (.ok (some f), [.sleepMs 1500, .statusFetch i])
      | none =>
        if j.status == some "error" then
          (.ok none, [.sleepMs 1500, .statusFetch i])
        else
          let rest := pollLoop fetches (i + 1) fuel
          (rest.1, .sleepMs 1500 :: .statusFetch i :: rest.2)

/-- The remote-URL handler, src/netlify/functions/convert.js lines 3–61. -/
def handler (apiKey : Option String) (ev : NetlifyEvent)
    (jobCreate : Except JsErr CreateResp)
    (fetches : Nat → Except JsErr JobSnapshot) : NResponse × List NCall :=
  if ev.httpMethod != "POST" then
    (⟨405, .fail "Use POST" none⟩, [])
  else
    match ev.parsedBody with
    | .error e => (⟨500, .fail "Server error" (some e.message)⟩, [])
    | .ok b =>
      if !truthy b.fileUrl || !truthy b.target then
        (⟨400, .fail "Provide fileUrl and target" none⟩, [])
      else if !truthy apiKey then
        (⟨500, .fail "Missing CLOUDCONVERT_API_KEY" none⟩, [])
      else
        match jobCreate with
        | .error e =>
          (⟨500, .fail "Server error" (some e.message)⟩, [.createJob])
        | .ok jr =>
          if !truthy jr.id then
            (⟨500, .fail "Failed to create job" none⟩, [.createJob])
          else
            let polled := pollLoop fetches 0 40
            match polled.1 with
            | .error e =>
              (⟨500, .fail "Server error" (some e.message)⟩,
               .createJob :: polled.2)
            | .ok none =>
              (⟨500, .fail "Conversion not finished or failed" none⟩,
               .createJob :: polled.2)
            | .ok (some f) =>
              (⟨200, .success f.url f.filename f.size f.content_type⟩,
               .createJob :: polled.2)

/-! ## Upload mode (src/server.js, POST /api/convert)

The route handler receives `req.file` (from multer memory storage),
`req.body?.target`, and the outcomes of the three external calls it can make
(`cloudConvert.jobs.create`, the axios POST of the multipart form to the
signed URL, `cloudConvert.jobs.wait`).  `apiConvert` also takes the
`CLOUDCONVERT_API_KEY` environment value: src/server.js reads it once at
startup (lines 67–71, emitting only a console warning when it is absent) and
the request handler never consults it, which the embedding reflects by not
using the parameter. -/

/-- The multer-provided upload: `{ originalname, mimetype, buffer, size }`. -/
structure ReqFile where
  originalname : String
  mimetype : String
  buffer : List Nat
  size : Nat
deriving DecidableEq, Repr

/-- A job object returned by the SDK (`jobs.create` / `jobs.wait`). -/
structure SJob where
  id : String
  tasks : List CTask
deriving DecidableEq, Repr

/-- The structured `details` objects attached to error responses. -/
inductive SDetails where
  | unsupportedMime (receivedMime : String) (supportedMimes : List String)
  | targetNotAllowed (sourceMime : String) (allowedTargets : List String)
  | upstream (status : Nat) (upstreamData : Option String)
  | message (msg : Option String)
deriving DecidableEq, Repr

/-- The JSON body of an upload-mode response: `{ error, details? }` or the
success payload with its `meta` block. -/
inductive SBody where
  | err (error : String) (details : Option SDetails)
  | success (downloadUrl : String) (filename : String) (sizeBytes : Nat)
      (contentType : String) (metaName : String) (metaMime : String)
      (metaSize : Nat) (metaTarget : String)
deriving DecidableEq, Repr

structure SResponse where
  status : Nat
  body : SBody
deriving DecidableEq, Repr

/-- An external call issued by the upload-mode handler. -/
inductive SCall where
  | jobsCreate
  | uploadPush
  | jobsWait
deriving DecidableEq, Repr

/-- The catch block of src/server.js lines 163–183 for the errors that can
actually be thrown inside the route body: axios/transport errors are proxied
with the upstream status (`err.response?.status || 500`, clamped to
[400,600) else 500), anything else becomes the generic
"Unexpected server error." with the thrown message as details. -/
def catchRespond (e : JsErr) : SResponse :=
  match e with
  | .axios _ st upstreamData =>
    let status := match st with
      | none => 500
      | some n => if n = 0 then 500 else n
    ⟨if 400 ≤ status ∧ status < 600 then status else 500,
     .err "Upstream conversion error." (some (.upstream status upstreamData))⟩
  | .other msg =>
    ⟨500, .err "Unexpected server error." (some (.message (some msg)))⟩

/-- The POST /api/convert route body, src/server.js lines 91–183.  Validation
(lines 93–111) precedes the job-creation call; the import-task handshake
check (lines 126–129) fires when the task or its `result` is absent, while a
`result` that is present but lacks its `form` makes line 132
(`importTask.result.form.url`) throw a TypeError that lands in the generic
catch branch.  The export-task extraction follows lines 146–162. -/
def apiConvert (_apiKey : Option String) (reqFile : Option ReqFile)
    (bodyTarget : Option String) (jobsCreate : Except JsErr SJob)
    (uploadPush : Except JsErr Unit) (jobsWait : Except JsErr SJob) :
    SResponse × List SCall :=
  match reqFile with
  | none =>
    (⟨400, .err "No file uploaded. Use field name \"file\"." none⟩, [])
  | some f =>
    let target := toLowerCase (bodyTarget.getD "")
    if target = "" then
      (⟨400,
        .err "Missing target format. Include a \"target\" field (e.g., pdf, docx, png)."
          none⟩, [])
    else
      match CONVERSION_MAP f.mimetype with
      | none =>
        (⟨400, .err "This file type is not supported yet."
            (some (.unsupportedMime f.mimetype CONVERSION_MAP_keys))⟩, [])
      | some allowedTargets =>
        if !isTargetAllowed f.mimetype target then
          (⟨400, .err "Target format not allowed for this file type."
              (some (.targetNotAllowed f.mimetype allowedTargets))⟩, [])
        else
          match jobsCreate with
          | .error e => (catchRespond e, [.jobsCreate])
          | .ok job =>
            match job.tasks.find? (fun t => t.name == "import-1") with
            | none =>
              (⟨500, .err "Failed to initialize upload with conversion service." none⟩,
               [.jobsCreate])
            | some importTask =>
              match importTask.result with
              | none =>
                (⟨500, .err "Failed to initialize upload with conversion service." none⟩,
                 [.jobsCreate])
              | some ir =>
                match ir.form with
                | none =>
                  (catchRespond
                     (.other "Cannot read properties of undefined (reading 'url')"),
                   [.jobsCreate])
                | some _uploadForm =>
                  match uploadPush with
                  | .error e => (catchRespond e, [.jobsCreate, .uploadPush])
                  | .ok _ =>
                    match jobsWait with
                    | .error e =>
                      (catchRespond e, [.jobsCreate, .uploadPush, .jobsWait])
                    | .ok completedJob =>
                      match ((completedJob.tasks.find?
                          (fun t => t.name == "export-1" && t.status == some "finished")).bind
                            CTask.firstFile) with
                      | none =>
                        (⟨500, .err "Conversion finished, but no output file was provided." none⟩,
                         [.jobsCreate, .uploadPush, .jobsWait])
                      | some fileInfo =>
                        (⟨200, .success fileInfo.url fileInfo.filename
                            fileInfo.size fileInfo.content_type
                            f.originalname f.mimetype f.size target⟩,
                         [.jobsCreate, .uploadPush, .jobsWait])

/-- The multer fileFilter of src/server.js lines 35–46: a banned mimetype is
rejected with `cb(new Error("Unsupported file type for security reasons."))`,
anything else is accepted (`cb(null, true)`). -/
def fileFilter (mimetype : String) : Except String Unit :=
  if bannedTypes.contains mimetype then
    .error "Unsupported file type for security reasons."
  else .ok ()

/-- The final app-level error handler of src/server.js lines 189–192: any
error forwarded to it by middleware is answered with status 500 and the body
`{ error: "Unhandled error" }`. -/
def unhandledError : SResponse :=
  ⟨500, .err "Unhandled error" none⟩

/-- An upload-mode request seen at the framework boundary.  Modelled from
the spec only in the dispatch ordering: the multer/Express wiring that runs
the `fileFilter` ahead of the route body, and on a filter error skips the
route body (so its multer.MulterError catch branch never sees it) and
forwards the error to the app's error-handling middleware, is library code
not under src/.  The response on that path is produced by in-src code: the
final error handler of src/server.js lines 189–192 (`unhandledError`, a 500
"Unhandled error" server error).  A request without a file skips the filter
and is handled by the route body's own no-file check. -/
def uploadEntry (apiKey : Option String) (reqFile : Option ReqFile)
    (bodyTarget : Option String) (jobsCreate : Except JsErr SJob)
    (uploadPush : Except JsErr Unit) (jobsWait : Except JsErr SJob) :
    SResponse × List SCall :=
  match reqFile with
  | some f =>
    match fileFilter f.mimetype with
    | .error _ => (unhandledError, [])
    | .ok _ => apiConvert apiKey reqFile bodyTarget jobsCreate uploadPush jobsWait
  | none => apiConvert apiKey none bodyTarget jobsCreate uploadPush jobsWait

/-! ## Lemmas about the polling loop -/

/-- A status fetch whose outcome lets the loop continue: it returned without
throwing, exposed no finished-export output file, and the job status is not
"error". -/
def nonTerminal (r : Except JsErr JobSnapshot) : Prop :=
  ∃ j, r = .ok j ∧ j.fileOut = none ∧ j.status ≠ some "error"

theorem pollLoop_fetch_count (f : Nat → Except JsErr JobSnapshot)
    (i fuel : Nat) : ((pollLoop f i fuel).2.countP NCall.isFetch) ≤ fuel := by
  induction fuel generalizing i with
  | zero => simp [pollLoop]
  | succ fuel ih =>
    simp only [pollLoop]
    cases hfi : f i with
    | error e => simp [hfi, List.countP_cons, NCall.isFetch]
    | ok j =>
      cases hf : j.fileOut with
      | some ff => simp [hfi, hf, List.countP_cons, NCall.isFetch]
      | none =>
        by_cases hs : (j.status == some "error") = true
        · simp [hfi, hf, hs, List.countP_cons, NCall.isFetch]
        · have hs' : (j.status == some "error") = false := by
            simpa using hs
          have hrec := ih (i + 1)
          simp only [hfi, hf, hs', Bool.false_eq_true, if_false,
            List.countP_cons, NCall.isFetch]
          simp only [List.countP_cons, NCall.isFetch, if_true, if_false,
            List.countP_nil] at hrec ⊢
          omega

theorem pollLoop_sleep_1500 (f : Nat → Except JsErr JobSnapshot)
    (i fuel ms : Nat) (h : NCall.sleepMs ms ∈ (pollLoop f i fuel).2) :
    ms = 1500 := by
  induction fuel generalizing i with
  | zero => simp [pollLoop] at h
  | succ fuel ih =>
    simp only [pollLoop] at h
    cases hfi : f i with
    | error e =>
      simp [hfi] at h
      exact h
    | ok j =>
      cases hf : j.fileOut with
      | some ff =>
        simp [hfi, hf] at h
        exact h
      | none =>
        by_cases hs : (j.status == some "error") = true
        · simp [hfi, hf, hs] at h
          exact h
        · have hs' : (j.status == some "error") = false := by
            simpa using hs
          simp only [hfi, hf, hs', Bool.false_eq_true, if_false,
            List.mem_cons] at h
          rcases h with h | h | h
          · injection h
          · injection h
          · exact ih (i + 1) h

theorem pollLoop_fetch_mem (f : Nat → Except JsErr JobSnapshot)
    (i fuel k : Nat) (h : NCall.statusFetch k ∈ (pollLoop f i fuel).2) :
    i ≤ k ∧ k < i + fuel := by
  induction fuel generalizing i with
  | zero => simp [pollLoop] at h
  | succ fuel ih =>
    simp only [pollLoop] at h
    cases hfi : f i with
    | error e =>
      simp [hfi] at h
      omega
    | ok j =>
      cases hf : j.fileOut with
      | some ff =>
        simp [hfi, hf] at h
        omega
      | none =>
        by_cases hs : (j.status == some "error") = true
        · simp [hfi, hf, hs] at h
          omega
        · have hs' : (j.status == some "error") = false := by
            simpa using hs
          simp only [hfi, hf, hs', Bool.false_eq_true, if_false,
            List.mem_cons] at h
          rcases h with h | h | h
          · injection h
          · injection h with h
            omega
          · have := ih (i + 1) h
            omega

theorem pollLoop_stop_after_terminal (f : Nat → Except JsErr JobSnapshot)
    (i fuel k : Nat) (j : JobSnapshot)
    (hk : NCall.statusFetch k ∈ (pollLoop f i fuel).2)
    (hj : f k = .ok j)
    (hterm : j.fileOut.isSome = true ∨ j.status = some "error")
    (m : Nat) (hm : NCall.statusFetch m ∈ (pollLoop f i fuel).2) : m ≤ k := by
  induction fuel generalizing i with
  | zero => simp [pollLoop] at hk
  | succ fuel ih =>
    simp only [pollLoop] at hk hm
    cases hfi : f i with
    | error e =>
      simp [hfi] at hk hm
      omega
    | ok j0 =>
      cases hf : j0.fileOut with
      | some ff =>
        simp [hfi, hf] at hk hm
        omega
      | none =>
        by_cases hs : (j0.status == some "error") = true
        · simp [hfi, hf, hs] at hk hm
          omega
        · have hs' : (j0.status == some "error") = false := by
            simpa using hs
          simp only [hfi, hf, hs', Bool.false_eq_true, if_false,
            List.mem_cons] at hk hm
          rcases hk with hk | hk | hk
          · injection hk
          · -- the terminal fetch is attempt i itself: contradicts attempt i
            -- being non-terminal
            injection hk with hk
            subst hk
            rw [hfi] at hj
            injection hj with hj
            subst hj
            rcases hterm with hterm | hterm
            · rw [hf] at hterm
              simp at hterm
            · rw [hterm] at hs'
              simp at hs'
          · rcases hm with hm | hm | hm
            · injection hm
            · injection hm with hm
              have := pollLoop_fetch_mem f (i + 1) fuel k hk
              omega
            · exact ih (i + 1) hk hm

theorem pollLoop_finds_file (f : Nat → Except JsErr JobSnapshot)
    (i fuel k : Nat) (j : JobSnapshot) (ffile : FileInfo)
    (hik : i ≤ k) (hk : k < i + fuel)
    (hfk : f k = .ok j) (hfile : j.fileOut = some ffile)
    (hpre : ∀ m, i ≤ m → m < k → nonTerminal (f m)) :
    (pollLoop f i fuel).1 = .ok (some ffile) := by
  induction fuel generalizing i with
  | zero => omega
  | succ fuel ih =>
    rcases Nat.eq_or_lt_of_le hik with heq | hlt
    · subst heq
      simp only [pollLoop, hfk, hfile]
    · obtain ⟨j0, hj0, hfo, hst⟩ := hpre i (Nat.le_refl i) hlt
      have hs : (j0.status == some "error") = false := by
        simpa using hst
      simp only [pollLoop, hj0, hfo, hs, Bool.false_eq_true, if_false]
      exact ih (i + 1) hlt (by omega) (fun m hm1 hm2 => hpre m (by omega) hm2)

theorem pollLoop_error_stops (f : Nat → Except JsErr JobSnapshot)
    (i fuel k : Nat) (j : JobSnapshot)
    (hik : i ≤ k) (hk : k < i + fuel)
    (hfk : f k = .ok j) (hfile : j.fileOut = none)
    (hst : j.status = some "error")
    (hpre : ∀ m, i ≤ m → m < k → nonTerminal (f m)) :
    (pollLoop f i fuel).1 = .ok none := by
  induction fuel generalizing i with
  | zero => omega
  | succ fuel ih =>
    rcases Nat.eq_or_lt_of_le hik with heq | hlt
    · subst heq
      have hs : (j.status == some "error") = true := by simp [hst]
      simp only [pollLoop, hfk, hfile, hs, if_true]
    · obtain ⟨j0, hj0, hfo, hs0⟩ := hpre i (Nat.le_refl i) hlt
      have hs : (j0.status == some "error") = false := by simpa using hs0
      simp only [pollLoop, hj0, hfo, hs, Bool.false_eq_true, if_false]
      exact ih (i + 1) hlt (by omega) (fun m hm1 hm2 => hpre m (by omega) hm2)

theorem conversionMap_targets_lowercase (ct : String) (ts : List String)
    (h : CONVERSION_MAP ct = some ts) (t : String) (ht : t ∈ ts) :
    toLowerCase t = t := by
  unfold CONVERSION_MAP at h
  split_ifs at h
  all_goals (injection h with h; subst h; fin_cases ht <;> decide)

theorem pollLoop_exhausted (f : Nat → Except JsErr JobSnapshot)
    (i fuel : Nat)
    (hpre : ∀ m, i ≤ m → m < i + fuel → nonTerminal (f m)) :
    (pollLoop f i fuel).1 = .ok none := by
  induction fuel generalizing i with
  | zero => simp [pollLoop]
  | succ fuel ih =>
    obtain ⟨j0, hj0, hfo, hs0⟩ := hpre i (Nat.le_refl i) (by omega)
    have hs : (j0.status == some "error") = false := by simpa using hs0
    simp only [pollLoop, hj0, hfo, hs, Bool.false_eq_true, if_false]
    exact ih (i + 1) (fun m hm1 hm2 => hpre m (by omega) (by omega))

/-! ## Claim theorems -/

/-- Claim C8: for every content type not present as a key of the allow-list
table, `isTargetAllowed` returns false for every target format. -/
theorem isTargetAllowed_unknown_mime (ct : String)
    (h : CONVERSION_MAP ct = none) (t : String) :
    isTargetAllowed ct t = false := by
  unfold isTargetAllowed
  rw [h]
  rfl

theorem isTargetAllowed_unknown_mime_wit :
    CONVERSION_MAP "video/mp4" = none ∧
      isTargetAllowed "video/mp4" "pdf" = false :=
  ⟨by decide, isTargetAllowed_unknown_mime "video/mp4" (by decide) "pdf"⟩

/-- Claim C9: whenever a target belongs to the allow-list entry of a content
type, `isTargetAllowed` accepts any letter-case variant of it (any argument
with the same lower-casing). -/
theorem isTargetAllowed_case_insensitive (ct : String) (ts : List String)
    (t u : String) (hlook : CONVERSION_MAP ct = some ts) (ht : t ∈ ts)
    (hcase : toLowerCase u = toLowerCase t) :
    isTargetAllowed ct u = true := by
  have hfix : toLowerCase t = t := conversionMap_targets_lowercase ct ts hlook t ht
  unfold isTargetAllowed
  rw [hlook]
  simp only [Option.getD_some]
  rw [hcase, hfix]
  exact List.elem_eq_true_of_mem ht

theorem isTargetAllowed_case_insensitive_wit :
    CONVERSION_MAP "application/pdf" = some ["docx", "png"] ∧
      isTargetAllowed "application/pdf" "PNG" = true :=
  ⟨by decide,
   isTargetAllowed_case_insensitive "application/pdf" ["docx", "png"]
     "png" "PNG" (by decide) (by decide) (by decide)⟩

/-- Claim C2: in remote-URL mode the polling step performs at most 40 status
fetches, every sleep between attempts is exactly 1500 ms, and the loop stops
early at the first attempt whose snapshot shows a finished export task with
an output file or an overall job status of "error" (no later attempt exists
in the trace); the full handler likewise never issues more than 40 fetches,
so the loop terminates within the fixed budget. -/
theorem polling_bounded_and_early_stop
    (fetches : Nat → Except JsErr JobSnapshot) :
    ((pollLoop fetches 0 40).2.countP NCall.isFetch ≤ 40)
    ∧ (∀ ms, NCall.sleepMs ms ∈ (pollLoop fetches 0 40).2 → ms = 1500)
    ∧ (∀ k j, NCall.statusFetch k ∈ (pollLoop fetches 0 40).2 →
        fetches k = .ok j →
        (j.fileOut.isSome = true ∨ j.status = some "error") →
        ∀ m, NCall.statusFetch m ∈ (pollLoop fetches 0 40).2 → m ≤ k)
    ∧ (∀ (apiKey : Option String) (ev : NetlifyEvent)
        (jobCreate : Except JsErr CreateResp),
        ((handler apiKey ev jobCreate fetches).2.countP NCall.isFetch) ≤ 40) := by
  refine ⟨pollLoop_fetch_count fetches 0 40,
    fun ms h => pollLoop_sleep_1500 fetches 0 40 ms h,
    fun k j hk hj ht m hm =>
      pollLoop_stop_after_terminal fetches 0 40 k j hk hj ht m hm, ?_⟩
  intro apiKey ev jobCreate
  have hp := pollLoop_fetch_count fetches 0 40
  simp only [handler]
  split
  · simp
  split
  · simp
  split
  · simp
  split
  · simp
  split
  · simp [NCall.isFetch]
  split
  · simp [NCall.isFetch]
  split <;> (simp [List.countP_cons, NCall.isFetch]; try omega)

/-- Claim C1: for every job lifecycle ending in a finished export task with
at least one output file, both implementations of submitAndAwait — the
remote-URL handler and the upload route — return a success result whose
downloadUrl, filename, sizeBytes and contentType are exactly the url,
filename, size and content_type of the first file of the finished export
task's file list. -/
theorem submitAndAwait_success_fields :
    (∀ (apiKey : Option String) (ev : NetlifyEvent) (b : EventBody)
        (jr : CreateResp) (fetches : Nat → Except JsErr JobSnapshot)
        (k : Nat) (j : JobSnapshot) (ffile : FileInfo),
      ev.httpMethod = "POST" → ev.parsedBody = .ok b →
      truthy b.fileUrl = true → truthy b.target = true →
      truthy apiKey = true → truthy jr.id = true →
      k < 40 → fetches k = .ok j → j.fileOut = some ffile →
      (∀ m, m < k → nonTerminal (fetches m)) →
      (handler apiKey ev (.ok jr) fetches).1 =
        ⟨200, .success ffile.url ffile.filename ffile.size ffile.content_type⟩)
    ∧ (∀ (apiKey : Option String) (f : ReqFile) (bodyTarget : Option String)
        (ats : List String) (job : SJob) (it : CTask) (ir : TaskResult)
        (fm : FormInfo) (cjob : SJob) (et : CTask) (ffile : FileInfo),
      toLowerCase (bodyTarget.getD "") ≠ "" →
      CONVERSION_MAP f.mimetype = some ats →
      isTargetAllowed f.mimetype (toLowerCase (bodyTarget.getD "")) = true →
      job.tasks.find? (fun t => t.name == "import-1") = some it →
      it.result = some ir → ir.form = some fm →
      cjob.tasks.find?
          (fun t => t.name == "export-1" && t.status == some "finished") = some et →
      et.firstFile = some ffile →
      (apiConvert apiKey (some f) bodyTarget (.ok job) (.ok ()) (.ok cjob)).1 =
        ⟨200, .success ffile.url ffile.filename ffile.size ffile.content_type
            f.originalname f.mimetype f.size (toLowerCase (bodyTarget.getD ""))⟩) := by
  constructor
  · intro apiKey ev b jr fetches k j ffile hmeth hbody hurl htgt hkey hid
      hk hfk hfile hpre
    have hpoll : (pollLoop fetches 0 40).1 = .ok (some ffile) :=
      pollLoop_finds_file fetches 0 40 k j ffile (Nat.zero_le k) (by omega)
        hfk hfile (fun m _ hmk => hpre m hmk)
    simp [handler, hmeth, hbody, hurl, htgt, hkey, hid, hpoll]
  · intro apiKey f bodyTarget ats job it ir fm cjob et ffile
      htgt hmap hallow himp hres hform hexp hfiles
    simp [apiConvert, htgt, hmap, hallow, himp, hres, hform, hexp, hfiles]

theorem submitAndAwait_success_fields_wit :
    ((handler (some "key")
        ⟨"POST", .ok ⟨some "https://x/in.pdf", some "docx"⟩⟩
        (.ok ⟨some "job-1"⟩)
        (fun _ => .ok ⟨some "finished",
          some [⟨"export-1", some "finished",
            some ⟨none, some [⟨"https://x/out.docx", "out.docx", 1024,
              "application/docx"⟩]⟩⟩]⟩)).1 =
      ⟨200, .success "https://x/out.docx" "out.docx" 1024 "application/docx"⟩)
    ∧ ((apiConvert none (some ⟨"in.png", "image/png", [1], 3⟩) (some "PDF")
        (.ok ⟨"j", [⟨"import-1", some "waiting",
          some ⟨some ⟨"https://up", none⟩, none⟩⟩]⟩)
        (.ok ())
        (.ok ⟨"j", [⟨"export-1", some "finished",
          some ⟨none, some [⟨"https://d", "o.pdf", 9, "application/pdf"⟩]⟩⟩]⟩)).1 =
      ⟨200, .success "https://d" "o.pdf" 9 "application/pdf"
          "in.png" "image/png" 3 "pdf"⟩) := by
  constructor
  · exact submitAndAwait_success_fields.1 (some "key")
      ⟨"POST", .ok ⟨some "https://x/in.pdf", some "docx"⟩⟩
      ⟨some "https://x/in.pdf", some "docx"⟩ ⟨some "job-1"⟩
      (fun _ => .ok ⟨some "finished",
        some [⟨"export-1", some "finished",
          some ⟨none, some [⟨"https://x/out.docx", "out.docx", 1024,
            "application/docx"⟩]⟩⟩]⟩)
      0
      ⟨some "finished",
        some [⟨"export-1", some "finished",
          some ⟨none, some [⟨"https://x/out.docx", "out.docx", 1024,
            "application/docx"⟩]⟩⟩]⟩
      ⟨"https://x/out.docx", "out.docx", 1024, "application/docx"⟩
      rfl rfl rfl rfl rfl rfl (by omega) rfl rfl
      (fun m hm => absurd hm (by omega))
  · exact submitAndAwait_success_fields.2 none ⟨"in.png", "image/png", [1], 3⟩
      (some "PDF") ["jpg", "webp", "pdf", "png"]
      ⟨"j", [⟨"import-1", some "waiting",
        some ⟨some ⟨"https://up", none⟩, none⟩⟩]⟩
      ⟨"import-1", some "waiting", some ⟨some ⟨"https://up", none⟩, none⟩⟩
      ⟨some ⟨"https://up", none⟩, none⟩
      ⟨"https://up", none⟩
      ⟨"j", [⟨"export-1", some "finished",
        some ⟨none, some [⟨"https://d", "o.pdf", 9, "application/pdf"⟩]⟩⟩]⟩
      ⟨"export-1", some "finished",
        some ⟨none, some [⟨"https://d", "o.pdf", 9, "application/pdf"⟩]⟩⟩
      ⟨"https://d", "o.pdf", 9, "application/pdf"⟩
      (by decide) (by decide) (by decide) rfl rfl rfl rfl rfl

/-- Claim C3: whenever the job status becomes "error" before a finished
export with an output file is observed, and whenever the 40-attempt budget
is exhausted without one, the remote-URL handler yields the very same
failure — status 500 with error "Conversion not finished or failed" — and
no result fields. -/
theorem poll_error_and_exhaustion_same_failure
    (apiKey : Option String) (ev : NetlifyEvent) (b : EventBody)
    (jr : CreateResp) (fetches : Nat → Except JsErr JobSnapshot)
    (hmeth : ev.httpMethod = "POST") (hbody : ev.parsedBody = .ok b)
    (hurl : truthy b.fileUrl = true) (htgt : truthy b.target = true)
    (hkey : truthy apiKey = true) (hid : truthy jr.id = true) :
    (∀ (k : Nat) (j : JobSnapshot), k < 40 → fetches k = .ok j →
      j.fileOut = none → j.status = some "error" →
      (∀ m, m < k → nonTerminal (fetches m)) →
      (handler apiKey ev (.ok jr) fetches).1 =
        ⟨500, .fail "Conversion not finished or failed" none⟩)
    ∧ ((∀ m, m < 40 → nonTerminal (fetches m)) →
      (handler apiKey ev (.ok jr) fetches).1 =
        ⟨500, .fail "Conversion not finished or failed" none⟩) := by
  constructor
  · intro k j hk hfk hfile hst hpre
    have hpoll : (pollLoop fetches 0 40).1 = .ok none :=
      pollLoop_error_stops fetches 0 40 k j (Nat.zero_le k) (by omega)
        hfk hfile hst (fun m _ hmk => hpre m hmk)
    simp [handler, hmeth, hbody, hurl, htgt, hkey, hid, hpoll]
  · intro hpre
    have hpoll : (pollLoop fetches 0 40).1 = .ok none :=
      pollLoop_exhausted fetches 0 40 (fun m _ hm => hpre m (by omega))
    simp [handler, hmeth, hbody, hurl, htgt, hkey, hid, hpoll]

theorem poll_error_and_exhaustion_same_failure_wit :
    ((handler (some "key") ⟨"POST", .ok ⟨some "https://x", some "pdf"⟩⟩
        (.ok ⟨some "job-1"⟩) (fun _ => .ok ⟨some "error", none⟩)).1 =
      ⟨500, .fail "Conversion not finished or failed" none⟩)
    ∧ ((handler (some "key") ⟨"POST", .ok ⟨some "https://x", some "pdf"⟩⟩
        (.ok ⟨some "job-1"⟩) (fun _ => .ok ⟨some "waiting", none⟩)).1 =
      ⟨500, .fail "Conversion not finished or failed" none⟩) := by
  constructor
  · exact (poll_error_and_exhaustion_same_failure (some "key")
      ⟨"POST", .ok ⟨some "https://x", some "pdf"⟩⟩
      ⟨some "https://x", some "pdf"⟩ ⟨some "job-1"⟩
      (fun _ => .ok ⟨some "error", none⟩)
      rfl rfl rfl rfl rfl rfl).1 0 ⟨some "error", none⟩
      (by omega) rfl rfl rfl (fun m hm => absurd hm (by omega))
  · exact (poll_error_and_exhaustion_same_failure (some "key")
      ⟨"POST", .ok ⟨some "https://x", some "pdf"⟩⟩
      ⟨some "https://x", some "pdf"⟩ ⟨some "job-1"⟩
      (fun _ => .ok ⟨some "waiting", none⟩)
      rfl rfl rfl rfl rfl rfl).2
      (fun m _ => ⟨⟨some "waiting", none⟩, rfl, rfl, by decide⟩)

/-- Claim C10: if a single status fetch shows both a finished export task
with an output file and an overall job status of "error", the remote-URL
handler returns the success result built from that file — the
finished-export check takes priority over the error status. -/
theorem finished_export_beats_error_status
    (apiKey : Option String) (ev : NetlifyEvent) (b : EventBody)
    (jr : CreateResp) (fetches : Nat → Except JsErr JobSnapshot)
    (k : Nat) (j : JobSnapshot) (ffile : FileInfo)
    (hmeth : ev.httpMethod = "POST") (hbody : ev.parsedBody = .ok b)
    (hurl : truthy b.fileUrl = true) (htgt : truthy b.target = true)
    (hkey : truthy apiKey = true) (hid : truthy jr.id = true)
    (hk : k < 40) (hfk : fetches k = .ok j)
    (hfile : j.fileOut = some ffile) (_hst : j.status = some "error")
    (hpre : ∀ m, m < k → nonTerminal (fetches m)) :
    (handler apiKey ev (.ok jr) fetches).1 =
      ⟨200, .success ffile.url ffile.filename ffile.size ffile.content_type⟩ := by
  have hpoll : (pollLoop fetches 0 40).1 = .ok (some ffile) :=
    pollLoop_finds_file fetches 0 40 k j ffile (Nat.zero_le k) (by omega)
      hfk hfile (fun m _ hmk => hpre m hmk)
  simp [handler, hmeth, hbody, hurl, htgt, hkey, hid, hpoll]

theorem finished_export_beats_error_status_wit :
    (handler (some "key") ⟨"POST", .ok ⟨some "https://x", some "pdf"⟩⟩
      (.ok ⟨some "job-1"⟩)
      (fun _ => .ok ⟨some "error",
        some [⟨"export-1", some "finished",
          some ⟨none, some [⟨"https://d", "o.pdf", 7, "application/pdf"⟩]⟩⟩]⟩)).1 =
    ⟨200, .success "https://d" "o.pdf" 7 "application/pdf"⟩ :=
  finished_export_beats_error_status (some "key")
    ⟨"POST", .ok ⟨some "https://x", some "pdf"⟩⟩
    ⟨some "https://x", some "pdf"⟩ ⟨some "job-1"⟩
    (fun _ => .ok ⟨some "error",
      some [⟨"export-1", some "finished",
        some ⟨none, some [⟨"https://d", "o.pdf", 7, "application/pdf"⟩]⟩⟩]⟩)
    0
    ⟨some "error",
      some [⟨"export-1", some "finished",
        some ⟨none, some [⟨"https://d", "o.pdf", 7, "application/pdf"⟩]⟩⟩]⟩
    ⟨"https://d", "o.pdf", 7, "application/pdf"⟩
    rfl rfl rfl rfl rfl rfl (by omega) rfl rfl rfl
    (fun m hm => absurd hm (by omega))

/-- Claim C4 (amended): every upload-mode request that fails validation —
no file, empty target, content type absent from the allow-list, target not
in the content type's allowed set, or banned executable content type — is
rejected before any external call (the external-call trace is empty, in
particular no job-creation call is ever issued); the four in-handler
validations answer with a 400 client-input error, while a banned content
type is stopped by the fileFilter and answered by the final error handler
as a 500 "Unhandled error" server error, not a client-input error. -/
theorem upload_validation_failfast (apiKey : Option String)
    (bodyTarget : Option String) (jobsCreate : Except JsErr SJob)
    (uploadPush : Except JsErr Unit) (jobsWait : Except JsErr SJob) :
    (uploadEntry apiKey none bodyTarget jobsCreate uploadPush jobsWait =
      (⟨400, .err "No file uploaded. Use field name \"file\"." none⟩, []))
    ∧ (∀ f : ReqFile, bannedTypes.contains f.mimetype = true →
        uploadEntry apiKey (some f) bodyTarget jobsCreate uploadPush jobsWait =
          (⟨500, .err "Unhandled error" none⟩, []))
    ∧ (∀ f : ReqFile, bannedTypes.contains f.mimetype = false →
        toLowerCase (bodyTarget.getD "") = "" →
        uploadEntry apiKey (some f) bodyTarget jobsCreate uploadPush jobsWait =
          (⟨400,
            .err "Missing target format. Include a \"target\" field (e.g., pdf, docx, png)."
              none⟩, []))
    ∧ (∀ f : ReqFile, bannedTypes.contains f.mimetype = false →
        toLowerCase (bodyTarget.getD "") ≠ "" →
        CONVERSION_MAP f.mimetype = none →
        uploadEntry apiKey (some f) bodyTarget jobsCreate uploadPush jobsWait =
          (⟨400, .err "This file type is not supported yet."
            (some (.unsupportedMime f.mimetype CONVERSION_MAP_keys))⟩, []))
    ∧ (∀ (f : ReqFile) (ats : List String),
        bannedTypes.contains f.mimetype = false →
        toLowerCase (bodyTarget.getD "") ≠ "" →
        CONVERSION_MAP f.mimetype = some ats →
        isTargetAllowed f.mimetype (toLowerCase (bodyTarget.getD "")) = false →
        uploadEntry apiKey (some f) bodyTarget jobsCreate uploadPush jobsWait =
          (⟨400, .err "Target format not allowed for this file type."
            (some (.targetNotAllowed f.mimetype ats))⟩, [])) := by
  refine ⟨?_, ?_, ?_, ?_, ?_⟩
  · simp [uploadEntry, apiConvert]
  · intro f hban
    have hb : f.mimetype ∈ bannedTypes := by simpa using hban
    simp [uploadEntry, fileFilter, unhandledError, hb]
  · intro f hban htgt
    have hb : f.mimetype ∉ bannedTypes := by simpa using hban
    simp [uploadEntry, fileFilter, apiConvert, hb, htgt]
  · intro f hban htgt hmap
    have hb : f.mimetype ∉ bannedTypes := by simpa using hban
    simp [uploadEntry, fileFilter, apiConvert, hb, htgt, hmap]
  · intro f ats hban htgt hmap hallow
    have hb : f.mimetype ∉ bannedTypes := by simpa using hban
    simp [uploadEntry, fileFilter, apiConvert, hb, htgt, hmap, hallow]

theorem upload_validation_failfast_wit :
    (uploadEntry none (some ⟨"x.exe", "application/x-msdownload", [0], 2⟩)
        (some "pdf") (.ok ⟨"j", []⟩) (.ok ()) (.ok ⟨"j", []⟩) =
      (⟨500, .err "Unhandled error" none⟩, []))
    ∧ (uploadEntry none (some ⟨"x.mp4", "video/mp4", [0], 2⟩)
        (some "pdf") (.ok ⟨"j", []⟩) (.ok ()) (.ok ⟨"j", []⟩) =
      (⟨400, .err "This file type is not supported yet."
        (some (.unsupportedMime "video/mp4" CONVERSION_MAP_keys))⟩, []))
    ∧ (uploadEntry none (some ⟨"x.png", "image/png", [0], 2⟩)
        (some "mp4") (.ok ⟨"j", []⟩) (.ok ()) (.ok ⟨"j", []⟩) =
      (⟨400, .err "Target format not allowed for this file type."
        (some (.targetNotAllowed "image/png" ["jpg", "webp", "pdf", "png"]))⟩, [])) := by
  refine ⟨?_, ?_, ?_⟩
  · exact (upload_validation_failfast none (some "pdf")
      (.ok ⟨"j", []⟩) (.ok ()) (.ok ⟨"j", []⟩)).2.1
      ⟨"x.exe", "application/x-msdownload", [0], 2⟩ (by decide)
  · exact (upload_validation_failfast none (some "pdf")
      (.ok ⟨"j", []⟩) (.ok ()) (.ok ⟨"j", []⟩)).2.2.2.1
      ⟨"x.mp4", "video/mp4", [0], 2⟩ (by decide) (by decide) (by decide)
  · exact (upload_validation_failfast none (some "mp4")
      (.ok ⟨"j", []⟩) (.ok ()) (.ok ⟨"j", []⟩)).2.2.2.2
      ⟨"x.png", "image/png", [0], 2⟩ ["jpg", "webp", "pdf", "png"]
      (by decide) (by decide) (by decide) (by decide)

/-- Claim C4 counterexample: an upload declared with the banned content type
application/x-msdownload is rejected before any external call (empty call
trace), but the response — shaped by the final error handler of
src/server.js lines 189–192 after the fileFilter Error bypasses the route
body — is the 500 "Unhandled error" server error, not a 400 client-input
error as the claim states. -/
theorem banned_type_not_client_error_cex :
    (uploadEntry none (some ⟨"x.exe", "application/x-msdownload", [0], 2⟩)
        (some "pdf") (.ok ⟨"j", []⟩) (.ok ()) (.ok ⟨"j", []⟩) =
      (⟨500, .err "Unhandled error" none⟩, []))
    ∧ ((uploadEntry none (some ⟨"x.exe", "application/x-msdownload", [0], 2⟩)
        (some "pdf") (.ok ⟨"j", []⟩) (.ok ()) (.ok ⟨"j", []⟩)).1.status ≠ 400) := by
  exact ⟨by decide, by decide⟩

/-- Claim C7: when the blocking wait yields a job whose finished `export-1`
task has a missing or empty output-file list, the upload route fails with
status 500 and the error "Conversion finished, but no output file was
provided.", returning no result fields. -/
theorem export_without_files_fails (apiKey : Option String) (f : ReqFile)
    (bodyTarget : Option String) (ats : List String) (job : SJob)
    (it : CTask) (ir : TaskResult) (fm : FormInfo) (cjob : SJob) (et : CTask)
    (htgt : toLowerCase (bodyTarget.getD "") ≠ "")
    (hmap : CONVERSION_MAP f.mimetype = some ats)
    (hallow : isTargetAllowed f.mimetype (toLowerCase (bodyTarget.getD "")) = true)
    (himp : job.tasks.find? (fun t => t.name == "import-1") = some it)
    (hres : it.result = some ir) (hform : ir.form = some fm)
    (hexp : cjob.tasks.find?
      (fun t => t.name == "export-1" && t.status == some "finished") = some et)
    (hfiles : et.firstFile = none) :
    (apiConvert apiKey (some f) bodyTarget (.ok job) (.ok ()) (.ok cjob)).1 =
      ⟨500, .err "Conversion finished, but no output file was provided." none⟩ := by
  simp [apiConvert, htgt, hmap, hallow, himp, hres, hform, hexp, hfiles]

theorem export_without_files_fails_wit :
    (apiConvert none (some ⟨"in.png", "image/png", [1], 3⟩) (some "pdf")
      (.ok ⟨"j", [⟨"import-1", some "waiting",
        some ⟨some ⟨"https://up", none⟩, none⟩⟩]⟩)
      (.ok ())
      (.ok ⟨"j", [⟨"export-1", some "finished", some ⟨none, some []⟩⟩]⟩)).1 =
    ⟨500, .err "Conversion finished, but no output file was provided." none⟩ :=
  export_without_files_fails none ⟨"in.png", "image/png", [1], 3⟩ (some "pdf")
    ["jpg", "webp", "pdf", "png"]
    ⟨"j", [⟨"import-1", some "waiting", some ⟨some ⟨"https://up", none⟩, none⟩⟩]⟩
    ⟨"import-1", some "waiting", some ⟨some ⟨"https://up", none⟩, none⟩⟩
    ⟨some ⟨"https://up", none⟩, none⟩
    ⟨"https://up", none⟩
    ⟨"j", [⟨"export-1", some "finished", some ⟨none, some []⟩⟩]⟩
    ⟨"export-1", some "finished", some ⟨none, some []⟩⟩
    (by decide) (by decide) (by decide) rfl rfl rfl rfl rfl

/-- Claim C5 (amended): after a successful upload-mode job creation, the
specific failure "Failed to initialize upload with conversion service."
(status 500) is produced exactly when the `import-1` task or its `result`
object is absent; a `result` that is present but malformed — missing its
`form` — instead makes the handler throw while reading `form.url`, which the
catch-all turns into the generic "Unexpected server error." failure. -/
theorem import_handshake_error_modes (apiKey : Option String) (f : ReqFile)
    (bodyTarget : Option String) (ats : List String) (job : SJob)
    (uploadPush : Except JsErr Unit) (jobsWait : Except JsErr SJob)
    (htgt : toLowerCase (bodyTarget.getD "") ≠ "")
    (hmap : CONVERSION_MAP f.mimetype = some ats)
    (hallow : isTargetAllowed f.mimetype (toLowerCase (bodyTarget.getD "")) = true) :
    (job.tasks.find? (fun t => t.name == "import-1") = none →
      (apiConvert apiKey (some f) bodyTarget (.ok job) uploadPush jobsWait).1 =
        ⟨500, .err "Failed to initialize upload with conversion service." none⟩)
    ∧ (∀ it : CTask, job.tasks.find? (fun t => t.name == "import-1") = some it →
        it.result = none →
        (apiConvert apiKey (some f) bodyTarget (.ok job) uploadPush jobsWait).1 =
          ⟨500, .err "Failed to initialize upload with conversion service." none⟩)
    ∧ (∀ (it : CTask) (ir : TaskResult),
        job.tasks.find? (fun t => t.name == "import-1") = some it →
        it.result = some ir → ir.form = none →
        (apiConvert apiKey (some f) bodyTarget (.ok job) uploadPush jobsWait).1 =
          ⟨500, .err "Unexpected server error." (some (.message
            (some "Cannot read properties of undefined (reading 'url')")))⟩) := by
  refine ⟨?_, ?_, ?_⟩
  · intro himp
    simp [apiConvert, htgt, hmap, hallow, himp]
  · intro it himp hres
    simp [apiConvert, htgt, hmap, hallow, himp, hres]
  · intro it ir himp hres hform
    simp [apiConvert, catchRespond, htgt, hmap, hallow, himp, hres, hform]

theorem import_handshake_error_modes_wit :
    ((apiConvert none (some ⟨"a.pdf", "application/pdf", [0], 4⟩) (some "png")
        (.ok ⟨"j", []⟩) (.ok ()) (.ok ⟨"j", []⟩)).1 =
      ⟨500, .err "Failed to initialize upload with conversion service." none⟩)
    ∧ ((apiConvert none (some ⟨"a.pdf", "application/pdf", [0], 4⟩) (some "png")
        (.ok ⟨"j", [⟨"import-1", some "waiting", none⟩]⟩)
        (.ok ()) (.ok ⟨"j", []⟩)).1 =
      ⟨500, .err "Failed to initialize upload with conversion service." none⟩)
    ∧ ((apiConvert none (some ⟨"a.pdf", "application/pdf", [0], 4⟩) (some "png")
        (.ok ⟨"j", [⟨"import-1", some "waiting", some ⟨none, none⟩⟩]⟩)
        (.ok ()) (.ok ⟨"j", []⟩)).1 =
      ⟨500, .err "Unexpected server error." (some (.message
        (some "Cannot read properties of undefined (reading 'url')")))⟩) := by
  refine ⟨?_, ?_, ?_⟩
  · exact (import_handshake_error_modes none
      ⟨"a.pdf", "application/pdf", [0], 4⟩ (some "png")
      ["docx", "png"] ⟨"j", []⟩ (.ok ()) (.ok ⟨"j", []⟩)
      (by decide) (by decide) (by decide)).1 rfl
  · exact (import_handshake_error_modes none
      ⟨"a.pdf", "application/pdf", [0], 4⟩ (some "png")
      ["docx", "png"] ⟨"j", [⟨"import-1", some "waiting", none⟩]⟩
      (.ok ()) (.ok ⟨"j", []⟩)
      (by decide) (by decide) (by decide)).2.1
      ⟨"import-1", some "waiting", none⟩ rfl rfl
  · exact (import_handshake_error_modes none
      ⟨"a.pdf", "application/pdf", [0], 4⟩ (some "png")
      ["docx", "png"] ⟨"j", [⟨"import-1", some "waiting", some ⟨none, none⟩⟩]⟩
      (.ok ()) (.ok ⟨"j", []⟩)
      (by decide) (by decide) (by decide)).2.2
      ⟨"import-1", some "waiting", some ⟨none, none⟩⟩ ⟨none, none⟩ rfl rfl rfl

/-- Claim C5 counterexample: a job-creation response whose import task has a
`result` that is present but malformed (its `form` is missing) does not
produce the specific "failed to initialize upload" error — it produces the
generic catch-all "Unexpected server error." instead. -/
theorem import_result_malformed_cex :
    ((apiConvert none (some ⟨"a.pdf", "application/pdf", [0], 4⟩) (some "png")
        (.ok ⟨"j", [⟨"import-1", some "waiting", some ⟨none, none⟩⟩]⟩)
        (.ok ()) (.ok ⟨"j", []⟩)).1 =
      ⟨500, .err "Unexpected server error." (some (.message
        (some "Cannot read properties of undefined (reading 'url')")))⟩)
    ∧ ((apiConvert none (some ⟨"a.pdf", "application/pdf", [0], 4⟩) (some "png")
        (.ok ⟨"j", [⟨"import-1", some "waiting", some ⟨none, none⟩⟩]⟩)
        (.ok ()) (.ok ⟨"j", []⟩)).1 ≠
      ⟨500, .err "Failed to initialize upload with conversion service." none⟩) := by
  exact ⟨by decide, by decide⟩

/-- Claim C6 (amended): the remote-URL entry point checks the credential per
request — whenever it is absent or empty, a POST with a well-formed body
fails with status 500 and "Missing CLOUDCONVERT_API_KEY", and regardless of
the rest of the request no external call is made.  The upload entry point,
by contrast, never consults the credential per request (src/server.js only
emits a startup warning): its behaviour is identical for every credential
value, so credential absence there is not surfaced before the external
job-creation call. -/
theorem missing_credential_behavior :
    (∀ (apiKey : Option String) (ev : NetlifyEvent) (b : EventBody)
        (jobCreate : Except JsErr CreateResp)
        (fetches : Nat → Except JsErr JobSnapshot),
      truthy apiKey = false →
      ((handler apiKey ev jobCreate fetches).2 = []
       ∧ (ev.httpMethod = "POST" → ev.parsedBody = .ok b →
          truthy b.fileUrl = true → truthy b.target = true →
          (handler apiKey ev jobCreate fetches).1 =
            ⟨500, .fail "Missing CLOUDCONVERT_API_KEY" none⟩)))
    ∧ (∀ (key1 key2 reqFileArg : _) (bodyTarget : Option String)
        (jobsCreate : Except JsErr SJob) (uploadPush : Except JsErr Unit)
        (jobsWait : Except JsErr SJob),
      apiConvert key1 reqFileArg bodyTarget jobsCreate uploadPush jobsWait =
        apiConvert key2 reqFileArg bodyTarget jobsCreate uploadPush jobsWait) := by
  constructor
  · intro apiKey ev b jobCreate fetches hkey
    constructor
    · simp only [handler]
      split
      · rfl
      split
      · rfl
      split
      · rfl
      rw [if_pos (by simp [hkey])]
    · intro hmeth hbody hurl htgt
      simp [handler, hmeth, hbody, hurl, htgt, hkey]
  · intro key1 key2 reqFileArg bodyTarget jobsCreate uploadPush jobsWait
    rfl

theorem missing_credential_behavior_wit :
    ((handler none ⟨"POST", .ok ⟨some "https://x", some "pdf"⟩⟩
        (.ok ⟨some "id"⟩) (fun _ => .ok ⟨none, none⟩)).2 = [])
    ∧ ((handler none ⟨"POST", .ok ⟨some "https://x", some "pdf"⟩⟩
        (.ok ⟨some "id"⟩) (fun _ => .ok ⟨none, none⟩)).1 =
      ⟨500, .fail "Missing CLOUDCONVERT_API_KEY" none⟩) := by
  have h := missing_credential_behavior.1 none
    ⟨"POST", .ok ⟨some "https://x", some "pdf"⟩⟩
    ⟨some "https://x", some "pdf"⟩ (.ok ⟨some "id"⟩)
    (fun _ => .ok ⟨none, none⟩) rfl
  exact ⟨h.1, h.2 rfl rfl rfl rfl⟩

/-- Claim C6 counterexample: with the credential absent, a valid upload-mode
request still issues the external job-creation call — the request does not
fail before any external call, and the failure it gets back (here a proxied
upstream 401) does not name the missing credential. -/
theorem server_missing_credential_calls_cex :
    ((apiConvert none (some ⟨"in.png", "image/png", [1], 3⟩) (some "pdf")
        (.error (.axios "Request failed with status code 401" (some 401) none))
        (.ok ()) (.ok ⟨"j", []⟩)).2 = [SCall.jobsCreate])
    ∧ ((apiConvert none (some ⟨"in.png", "image/png", [1], 3⟩) (some "pdf")
        (.error (.axios "Request failed with status code 401" (some 401) none))
        (.ok ()) (.ok ⟨"j", []⟩)).1 =
      ⟨401, .err "Upstream conversion error." (some (.upstream 401 none))⟩)
    ∧ [SCall.jobsCreate] ≠ ([] : List SCall) := by
  exact ⟨by decide, by decide, by decide⟩

theorem polling_bounded_and_early_stop_wit :
    ((pollLoop (fun _ => Except.ok (⟨some "error", none⟩ : JobSnapshot))
        0 40).2.countP NCall.isFetch ≤ 40)
    ∧ (1500 : Nat) = 1500
    ∧ (0 : Nat) ≤ 0
    ∧ ((handler (some "k") ⟨"POST", .ok ⟨some "u", some "t"⟩⟩ (.ok ⟨some "id"⟩)
        (fun _ => Except.ok (⟨some "error", none⟩ : JobSnapshot))).2.countP
          NCall.isFetch ≤ 40) := by
  have h := polling_bounded_and_early_stop
    (fun _ => Except.ok (⟨some "error", none⟩ : JobSnapshot))
  exact ⟨h.1, h.2.1 1500 (by decide),
    h.2.2.1 0 ⟨some "error", none⟩ (by decide) rfl (Or.inr rfl) 0 (by decide),
    h.2.2.2 (some "k") ⟨"POST", .ok ⟨some "u", some "t"⟩⟩ (.ok ⟨some "id"⟩)⟩
